import Mathlib

/-!
Shallow embedding of the telegram-discord-bridge core
(`src/bridge/core.py`, `src/discord_handler.py`) together with the
collaborator contracts the core calls into.  Pure data flow is embedded as
Lean functions; the Python exception flow is made explicit with
`Except`/result records; collaborator behaviour (the destination network,
the message splitter, the hashtag extractor, ...) is passed in as explicit
function arguments so every definition stays executable.

Components whose Python source is not part of `src/` (the
`MessageHistoryHandler` in `bridge/history.py`, `bridge/telegram_handler.py`,
`bridge/config.py` and `utils.py`) are modelled from the specification; each
such definition carries a doc comment starting with `Modelled from the spec:`.
-/

namespace TgBridge

/-- Destination-side (Discord) error kinds that appear in the source:
`discord.NotFound`, `discord.Forbidden`, `discord.HTTPException`. -/
inductive DiscordError
  | notFound
  | forbidden
  | httpException
deriving Repr, DecidableEq

/-- Python-level exceptions the embedded handlers can raise:
an `UnboundLocalError` (reading a local variable before assignment),
an `IndexError` (indexing into an empty list), or a destination-side
error that propagates uncaught. -/
inductive PyError
  | unboundLocal
  | indexError
  | discord (e : DiscordError)
deriving Repr, DecidableEq

/-- Decidable equality of `Except` results, so concrete runs can be checked
by evaluation. -/
instance {ε α : Type} [DecidableEq ε] [DecidableEq α] : DecidableEq (Except ε α) :=
  fun x y =>
    match x, y with
    | .ok a, .ok b =>
      if h : a = b then .isTrue (by rw [h]) else .isFalse (by intro hh; cases hh; exact h rfl)
    | .ok _, .error _ => .isFalse (by intro hh; cases hh)
    | .error _, .ok _ => .isFalse (by intro hh; cases hh)
    | .error e, .error e' =>
      if h : e = e' then .isTrue (by rw [h]) else .isFalse (by intro hh; cases hh; exact h rfl)

/-- ASCII lower-casing of a character, the executable model of Python's
`str.lower` on the tag and role names occurring here. -/
def lowerChar (c : Char) : Char :=
  if 65 ≤ c.toNat && c.toNat ≤ 90 then Char.ofNat (c.toNat + 32) else c

/-- ASCII lower-casing of a string (model of Python `str.lower`). -/
def strLower (s : String) : String := ⟨s.data.map lowerChar⟩

/-- A Telegram message as the handlers see it: id, originating channel id
(`message.peer_id.channel_id`), text, the hashtags occurring in it (raw, as
written), a media flag, and an optional replied-to source message id. -/
structure TgMessage where
  id : Nat
  channel_id : Nat
  text : String
  hashtags : List String
  media : Bool
  reply_to_msg_id : Option Nat
deriving Repr, DecidableEq

/-- One allow/deny tag rule of a forwarder configuration
(`{"name": ..., "override_mention_everyone": ...}`; the flag defaults to
`False` for deny rules, where it is never read). -/
structure TagRule where
  name : String
  override_mention_everyone : Bool
deriving Repr, DecidableEq

/-- A forwarder (route) configuration, one block of `telegram_forwarders`. -/
structure ForwarderConfig where
  forwarder_name : String
  tg_channel_id : Nat
  discord_channel_id : Nat
  forward_everything : Bool
  forward_hashtags : List TagRule
  excluded_hashtags : List TagRule
  mention_override : List (String × List String)
  mention_everyone : Bool
deriving Repr, DecidableEq

/-- The Mapping Store state: message mappings keyed by
(forwarder name, source message id) with the stored destination message id,
plus the missed-forward records `(forwarder name, source id, destination
channel id)`. -/
structure Store where
  mappings : List ((String × Nat) × Nat)
  missed : List (String × Nat × Nat)
deriving Repr, DecidableEq

/-- Modelled from the spec: `MessageHistoryHandler.save_mapping_data`
(`bridge/history.py`, not under `src/`).  Records the Message Mapping for
(route name, source message id); per the spec's `record` contract a second
call for the same key overwrites rather than duplicates.  The call site in
`core.py` passes a single destination message id, so the stored value is one
id. -/
def save_mapping_data (st : Store) (forwarder_name : String)
    (tg_id discord_id : Nat) : Store :=
  { st with mappings :=
      ((forwarder_name, tg_id), discord_id) ::
        st.mappings.filter (fun p => !(p.1.1 == forwarder_name && p.1.2 == tg_id)) }

/-- Modelled from the spec: `MessageHistoryHandler.save_missed_message`
(`bridge/history.py`, not under `src/`).  Appends a Missed-Forward Record. -/
def save_missed_message (st : Store) (forwarder_name : String)
    (tg_id discord_channel_id : Nat) : Store :=
  { st with missed := st.missed ++ [(forwarder_name, tg_id, discord_channel_id)] }

/-- Modelled from the spec: the Mapping Store lookup
(`MessageHistoryHandler.get_discord_message_id` in `bridge/history.py` /
`utils.get_discord_message_id`, not under `src/`): returns the destination
message id mapped for (route name, source message id), or `none`. -/
def get_discord_message_id (st : Store) (forwarder_name : String)
    (tg_id : Nat) : Option Nat :=
  (st.mappings.find? (fun p => p.1.1 == forwarder_name && p.1.2 == tg_id)).map (·.2)

/-- Modelled from the spec: `get_message_forward_hashtags`
(`bridge/telegram_handler.py`, not under `src/`): extracts the event's
forward-hashtags; matching against the configured tag rules is
case-insensitive (the config side is lowercased at the call sites in
`core.py`), so extraction normalises tags to lower case. -/
def get_message_forward_hashtags (m : TgMessage) : List String :=
  m.hashtags.map strLower

/-- Modelled from the spec: `process_message_text`
(`bridge/telegram_handler.py`, not under `src/`): the external
text-transformation collaborator.  Its output content is irrelevant to the
core's control flow, so it is modelled as the message text. -/
def process_message_text (m : TgMessage) : String :=
  m.text

/-- Embeds `is_builtin_mention` (`src/discord_handler.py`). -/
def is_builtin_mention (role_name : String) (discord_built_in_roles : List String) : Bool :=
  discord_built_in_roles.contains (strLower role_name)

/-- Embeds `get_mention_roles` (`src/discord_handler.py`): for each extracted
hashtag present in the mention-override mapping, resolve each configured role
name to a built-in mention or a server-role mention (a `(name, mention)`
pair list models the guild's roles); unresolved names are skipped.  The
Python set is modelled as an order-of-first-insertion deduplicated list. -/
def get_mention_roles (message_forward_hashtags : List String)
    (mention_override : List (String × List String))
    (discord_built_in_roles : List String)
    (server_roles : List (String × String)) : List String :=
  let add := fun (acc : List String) (x : String) =>
    if acc.contains x then acc else acc ++ [x]
  message_forward_hashtags.foldl (fun acc tag =>
    match mention_override.find? (fun p => p.1 == strLower tag) with
    | none => acc
    | some pair =>
      pair.2.foldl (fun acc role_name =>
        if is_builtin_mention role_name discord_built_in_roles then
          add acc ("@" ++ role_name)
        else
          match server_roles.find? (fun r => r.1 == role_name) with
          | some r => add acc r.2
          | none => acc) acc) []

/-- The sequential send loop of `forward_to_discord`
(`src/discord_handler.py`, lines 49-51): each part is sent with
`discord_channel.send`; the destination's behaviour is the oracle
`send : Nat → Except DiscordError Nat` giving the outcome of the n-th send
attempt of the run.  Returns the next send counter (number of attempts
consumed) and either the sent message ids in send order or the first
exception, which propagates (the Python code has no try/except here). -/
def forwardParts (send : Nat → Except DiscordError Nat) :
    Nat → List String → Nat × Except DiscordError (List Nat)
  | n, [] => (n, .ok [])
  | n, _part :: rest =>
    match send n with
    | .error e => (n + 1, .error e)
    | .ok m =>
      match forwardParts send (n + 1) rest with
      | (n', .error e) => (n', .error e)
      | (n', .ok ms) => (n', .ok (m :: ms))

/-- Embeds `forward_to_discord` (`src/discord_handler.py`): splits the
message text (`split_message` is the external splitting collaborator, passed
in as `split`), sends the first part with the image file when one is given
(indexing `message_parts[0]` raises `IndexError` on an empty list), then
sends every remaining part, preserving the reply reference on every part.
Destination-side exceptions propagate out unchanged. -/
def forward_to_discord (split : String → List String)
    (send : Nat → Except DiscordError Nat) (n : Nat)
    (message_text : String) (image_file : Option Unit) :
    Nat × Except PyError (List Nat) :=
  let message_parts := split message_text
  match image_file with
  | some _ =>
    match message_parts with
    | [] => (n, .error .indexError)
    | _p0 :: rest =>
      match send n with
      | .error e => (n + 1, .error (.discord e))
      | .ok m =>
        match forwardParts send (n + 1) rest with
        | (n', .error e) => (n', .error (.discord e))
        | (n', .ok ms) => (n', .ok (m :: ms))
  | none =>
    match forwardParts send n message_parts with
    | (n', .error e) => (n', .error (.discord e))
    | (n', .ok ms) => (n', .ok ms)

/-- Embeds `fetch_discord_reference` (`src/discord_handler.py`): look up the
mapped destination id for the replied-to source message id
(`lookupMapping` abstracts the Mapping Store lookup); when absent return no
reference.  Otherwise fetch the channel history around the mapped id
(`historyAround` is the destination collaborator; it may raise) and search
it for the mapped id: found gives a reference to it, not found gives no
reference, a `NotFound` error is caught and gives no reference; any other
destination error propagates uncaught. -/
def fetch_discord_reference (lookupMapping : Nat → Option Nat)
    (historyAround : Nat → Except DiscordError (List Nat))
    (reply_to_msg_id : Nat) : Except PyError (Option Nat) :=
  match lookupMapping reply_to_msg_id with
  | none => .ok none
  | some discord_message_id =>
    match historyAround discord_message_id with
    | .error .notFound => .ok none
    | .error e => .error (.discord e)
    | .ok messages =>
      match messages.find? (fun m => m == discord_message_id) with
      | none => .ok none
      | some _ => .ok (some discord_message_id)

/-- The collaborator environment of the new-message handler: the message
splitter, the destination send oracle (outcome of the n-th send of the run),
the channel-history collaborator used for reply-reference resolution, the
destination's built-in role names and guild role list, and (modelled from
the spec) the media-transformation collaborator producing the destination
payload parts of a media message. -/
structure HandlerCtx where
  split : String → List String
  send : Nat → Except DiscordError Nat
  historyAround : Nat → Except DiscordError (List Nat)
  built_in_roles : List String
  server_roles : List (String × String)
  mediaParts : TgMessage → List String

/-- Modelled from the spec: `handle_message_media`
(`bridge/telegram_handler.py`, not under `src/`): the media path obtains
destination-ready payload parts from the media collaborator and sends them
sequentially to the destination channel, like the text path. -/
def handle_message_media (ctx : HandlerCtx) (n : Nat) (m : TgMessage) :
    Nat × Except PyError (List Nat) :=
  match forwardParts ctx.send n (ctx.mediaParts m) with
  | (n', .error e) => (n', .error (.discord e))
  | (n', .ok ms) => (n', .ok ms)

/-- The routing decision computed by `Bridge._handle_new_message`
(`src/bridge/core.py`, lines 236-274) for one forwarder: `should_forward`
and `mention_everyone`, plus the value of the local variable
`message_forward_hashtags` after the decision (`none` models the Python
local still being unassigned; it is threaded across the forwarder loop
because the Python local survives loop iterations). -/
structure RoutingDecision where
  should_forward : Bool
  mention_everyone : Bool
  hashtags : Option (List String)
deriving Repr, DecidableEq

/-- Embeds `src/bridge/core.py` lines 236-274: default the decision to
`forward_everything`; when not forwarding by default or a mention override
exists, extract the hashtags and match them against the allow-list (a match
forces forwarding and recomputes `mention_everyone` as the OR of the matched
rules' override flags); when a deny-list exists, extract the hashtags and
force `should_forward = false` on any deny match. -/
def routeDecision (msg : TgMessage) (f : ForwarderConfig)
    (mfh0 : Option (List String)) : RoutingDecision :=
  let should0 := f.forward_everything
  let mention0 := f.mention_everyone
  let step1 :=
    if !should0 || !f.mention_override.isEmpty then
      let tags := get_message_forward_hashtags msg
      let matching :=
        if !tags.isEmpty && !f.forward_hashtags.isEmpty then
          f.forward_hashtags.filter (fun t => tags.contains (strLower t.name))
        else []
      if matching.length > 0 then
        (true, matching.any (fun t => t.override_mention_everyone), some tags)
      else
        (should0, mention0, some tags)
    else
      (should0, mention0, mfh0)
  if !f.excluded_hashtags.isEmpty then
    let tags := get_message_forward_hashtags msg
    let matchingEx := f.excluded_hashtags.filter (fun t => tags.contains (strLower t.name))
    if matchingEx.length > 0 then
      ⟨false, step1.2.1, some tags⟩
    else
      ⟨step1.1, step1.2.1, some tags⟩
  else
    ⟨step1.1, step1.2.1, step1.2.2⟩

/-- One destination delivery produced by the new-message handler for one
route: the route name, the source message id, the reply reference the sends
carried, and the destination message ids produced, in send order. -/
structure Delivery where
  forwarder_name : String
  tg_id : Nat
  reference : Option Nat
  sent_ids : List Nat
deriving Repr, DecidableEq

/-- Embeds `src/bridge/core.py` lines 276-318, the delivery part of
`Bridge._handle_new_message` for one forwarder whose decision was to
forward: reading the (possibly still unassigned) hashtags local for
`get_mention_roles` (an unassigned local raises `UnboundLocalError`),
resolving the reply reference when the event is a reply, sending via the
media or the text path, and on a non-empty result saving the mapping with
`sent_discord_messages[0].id`, else saving a missed-message record. -/
def deliverRoute (ctx : HandlerCtx) (msg : TgMessage) (st : Store) (n : Nat)
    (mfh : Option (List String)) (mention_everyone : Bool)
    (f : ForwarderConfig) : Except PyError (Store × Nat × Option Delivery) :=
  match mfh with
  | none => .error .unboundLocal
  | some tags =>
    let _mention_roles :=
      get_mention_roles tags f.mention_override ctx.built_in_roles ctx.server_roles
    let _message_text := process_message_text msg
    let _ := mention_everyone
    let drefE : Except PyError (Option Nat) :=
      match msg.reply_to_msg_id with
      | none => .ok none
      | some rid =>
        fetch_discord_reference
          (fun r => get_discord_message_id st f.forwarder_name r)
          ctx.historyAround rid
    match drefE with
    | .error e => .error e
    | .ok dref =>
      match (if msg.media then handle_message_media ctx n msg
             else forward_to_discord ctx.split ctx.send n (process_message_text msg) none) with
      | (_, .error e) => .error e
      | (n', .ok sent) =>
        match sent with
        | s0 :: _ =>
          .ok (save_mapping_data st f.forwarder_name msg.id s0, n',
            some ⟨f.forwarder_name, msg.id, dref, sent⟩)
        | [] =>
          .ok (save_missed_message st f.forwarder_name msg.id f.discord_channel_id, n', none)

/-- One iteration of the forwarder loop of `Bridge._handle_new_message`:
compute the routing decision, `continue` when it says not to forward,
otherwise deliver.  Returns the new store, the new send counter, the value
of the `message_forward_hashtags` local after this iteration, and the
delivery produced, if any. -/
def routeStep (ctx : HandlerCtx) (msg : TgMessage) (st : Store) (n : Nat)
    (mfh : Option (List String)) (f : ForwarderConfig) :
    Except PyError (Store × Nat × Option (List String) × Option Delivery) :=
  let d := routeDecision msg f mfh
  if d.should_forward then
    match deliverRoute ctx msg st n d.hashtags d.mention_everyone f with
    | .error e => .error e
    | .ok (st', n', od) => .ok (st', n', d.hashtags, od)
  else
    .ok (st, n, d.hashtags, none)

/-- The forwarder loop of `Bridge._handle_new_message`: process the matching
forwarders in order, threading the store, the send counter and the
`message_forward_hashtags` local; an exception raised while processing one
forwarder propagates out of the handler (the loop body has no try/except). -/
def handleRoutes (ctx : HandlerCtx) (msg : TgMessage) :
    List ForwarderConfig → Store → Nat → Option (List String) → List Delivery →
    Except PyError (Store × List Delivery)
  | [], st, _, _, ds => .ok (st, ds)
  | f :: rest, st, n, mfh, ds =>
    match routeStep ctx msg st n mfh f with
    | .error e => .error e
    | .ok (st', n', mfh', od) =>
      handleRoutes ctx msg rest st' n' mfh' (ds ++ od.toList)

/-- Embeds `Bridge.get_matching_forwarders` (`src/bridge/core.py`,
lines 321-323). -/
def get_matching_forwarders (forwarders : List ForwarderConfig)
    (tg_channel_id : Nat) : List ForwarderConfig :=
  forwarders.filter (fun fc => tg_channel_id == fc.tg_channel_id)

/-- Embeds `Bridge._handle_new_message` (`src/bridge/core.py`,
lines 216-318): find the forwarders matching the event's channel; with none,
log and return; otherwise run the forwarder loop.  The result is the final
store and the deliveries produced, or the exception that escaped the
handler. -/
def handle_new_message (ctx : HandlerCtx) (forwarders : List ForwarderConfig)
    (st : Store) (msg : TgMessage) : Except PyError (Store × List Delivery) :=
  let matching := get_matching_forwarders forwarders msg.channel_id
  if matching.length < 1 then .ok (st, [])
  else handleRoutes ctx msg matching st 0 none []

/-- Destination collaborator of the edit handler: channel lookup, message
fetch (which may raise, or report a missing message — the source also checks
the fetched message for `None`) and the edit operation on a message. -/
structure EditDest where
  get_channel : Nat → Option Nat
  fetch_message : Nat → Except DiscordError (Option Nat)
  edit_message : Nat → Except DiscordError Unit

/-- The forwarder loop of `Bridge._handle_edit_message`
(`src/bridge/core.py`, lines 116-155): per forwarder, look up the mapping
(absent: `continue`), get the channel (absent: `continue`), fetch the
destination message (a fetched `None`: `continue`) and edit it; any
`NotFound` / `Forbidden` / `HTTPException` from the fetch or the edit is
caught, logged and makes the handler `return`, abandoning the remaining
forwarders.  Returns the destination message ids edited, in order, and the
caught error that ended the loop early, if any. -/
def editRoutes (dest : EditDest) (st : Store) (tg_message_id : Nat) :
    List ForwarderConfig → List Nat → List Nat × Option DiscordError
  | [], acc => (acc, none)
  | f :: rest, acc =>
    match get_discord_message_id st f.forwarder_name tg_message_id with
    | none => editRoutes dest st tg_message_id rest acc
    | some discord_message_id =>
      match dest.get_channel f.discord_channel_id with
      | none => editRoutes dest st tg_message_id rest acc
      | some _ =>
        match dest.fetch_message discord_message_id with
        | .error e => (acc, some e)
        | .ok none => editRoutes dest st tg_message_id rest acc
        | .ok (some discord_message) =>
          match dest.edit_message discord_message with
          | .ok _ => editRoutes dest st tg_message_id rest (acc ++ [discord_message])
          | .error e => (acc, some e)

/-- Embeds `Bridge._handle_edit_message` (`src/bridge/core.py`,
lines 95-155): find the matching forwarders (none: log and return) and run
the edit loop over them. -/
def handle_edit_message (dest : EditDest) (forwarders : List ForwarderConfig)
    (st : Store) (tg_channel_id tg_message_id : Nat) :
    List Nat × Option DiscordError :=
  let matching := get_matching_forwarders forwarders tg_channel_id
  if matching.length < 1 then ([], none)
  else editRoutes dest st tg_message_id matching []

/-- Destination collaborator of the delete handler: channel lookup, message
fetch (may raise) and the delete operation on a message. -/
structure DeleteDest where
  get_channel : Nat → Option Nat
  fetch_message : Nat → Except DiscordError Unit
  delete_message : Nat → Except DiscordError Unit

/-- Outcome of the delete handler: the store (passed through — the source
never writes to the history manager here), the destination message ids
deleted, in order, and an exception that escaped the handler uncaught (the
fetch at `src/bridge/core.py` lines 195-199 only catches `NotFound`, so a
`Forbidden`/`HTTPException` raised there propagates out). -/
structure DeleteOutcome where
  store : Store
  deleted : List Nat
  raised : Option DiscordError
deriving Repr, DecidableEq

/-- The inner loop of `Bridge._handle_deleted_message`
(`src/bridge/core.py`, lines 177-213) over the deleted source ids for one
forwarder: look up the mapping (absent: `continue`); a missing channel makes
the whole handler `return`; a `NotFound` from the fetch is caught and makes
the handler `return`, any other fetch error propagates uncaught; a
`NotFound` / `Forbidden` / `HTTPException` from the delete is caught and
makes the handler `return`.  Returns the deleted ids so far, whether the
whole handler must stop, and an uncaught exception if one was raised. -/
def deleteIds (dest : DeleteDest) (st : Store) (f : ForwarderConfig) :
    List Nat → List Nat → List Nat × Bool × Option DiscordError
  | [], acc => (acc, false, none)
  | deleted_id :: rest, acc =>
    match get_discord_message_id st f.forwarder_name deleted_id with
    | none => deleteIds dest st f rest acc
    | some discord_message_id =>
      match dest.get_channel f.discord_channel_id with
      | none => (acc, true, none)
      | some _ =>
        match dest.fetch_message discord_message_id with
        | .error .notFound => (acc, true, none)
        | .error e => (acc, true, some e)
        | .ok _ =>
          match dest.delete_message discord_message_id with
          | .ok _ => deleteIds dest st f rest (acc ++ [discord_message_id])
          | .error _ => (acc, true, none)

/-- The outer forwarder loop of `Bridge._handle_deleted_message`: a stop
signalled by the inner loop (a Python `return` or an uncaught exception)
abandons the remaining forwarders. -/
def deleteForwarders (dest : DeleteDest) (st : Store) (deleted_ids : List Nat) :
    List ForwarderConfig → List Nat → List Nat × Option DiscordError
  | [], acc => (acc, none)
  | f :: rest, acc =>
    match deleteIds dest st f deleted_ids acc with
    | (acc', false, _) => deleteForwarders dest st deleted_ids rest acc'
    | (acc', true, raised) => (acc', raised)

/-- Embeds `Bridge._handle_deleted_message` (`src/bridge/core.py`,
lines 158-213): find the matching forwarders (none: log and return) and run
the delete loops.  The store is returned unchanged: the source contains no
history-manager write on this path. -/
def handle_deleted_message (dest : DeleteDest) (forwarders : List ForwarderConfig)
    (st : Store) (tg_channel_id : Nat) (deleted_ids : List Nat) : DeleteOutcome :=
  let matching := get_matching_forwarders forwarders tg_channel_id
  if matching.length < 1 then ⟨st, [], none⟩
  else
    let pr := deleteForwarders dest st deleted_ids matching []
    ⟨st, pr.1, pr.2⟩

/-- Modelled from the spec: `Config.get_telegram_channel_by_forwarder_name`
(`bridge/config.py`, not under `src/`): the source channel id configured for
the route of that name (route names are unique). -/
def get_telegram_channel_by_forwarder_name (forwarders : List ForwarderConfig)
    (forwarder_name : String) : Option Nat :=
  (forwarders.find? (fun f => f.forwarder_name == forwarder_name)).map (·.tg_channel_id)

/-- Largest element of a list of naturals, `none` on the empty list. -/
def listMax : List Nat → Option Nat
  | [] => none
  | n :: rest =>
    match listMax rest with
    | none => some n
    | some m => some (Nat.max n m)

/-- Modelled from the spec:
`MessageHistoryHandler.get_last_messages_for_all_forwarders`
(`bridge/history.py`, not under `src/`): per forwarder, the Route Cursor —
the highest source message id successfully mapped; forwarders with no
mapping are omitted. -/
def get_last_messages_for_all_forwarders (st : Store)
    (forwarders : List ForwarderConfig) : List (String × Nat) :=
  forwarders.filterMap (fun f =>
    match listMax (st.mappings.filterMap
        (fun p => if p.1.1 == f.forwarder_name then some p.1.2 else none)) with
    | none => none
    | some m => some (f.forwarder_name, m))

/-- Collaborators of the recovery loop: the new-message handler environment,
the fetch collaborator (`MessageHistoryHandler.fetch_messages_after`, not
under `src/`; modelled from the spec as the external source-client call
returning a sequence of messages with no promised order — it may also
raise), and the destination health flag as read at the k-th per-message
health check of the tick. -/
structure RecoveryCtx where
  hctx : HandlerCtx
  fetch : Nat → Nat → Except PyError (List TgMessage)
  discord_healthy : Nat → Bool

/-- The per-message replay loop of `Bridge.on_restored_connectivity`
(`src/bridge/core.py`, lines 350-368): for each fetched message, read the
destination health flag once (one health check per message); when false,
log, `continue` to the next message; when true, delay, then run the fetched
message through `Bridge._handle_new_message` exactly as a live event.  An
exception raised by the handler aborts the replay (it is caught only by the
tick-level try/except).  Returns the store, the next health-check counter,
the accumulated deliveries and the exception that aborted the replay, if
any. -/
def replayMessages (rc : RecoveryCtx) (forwarders : List ForwarderConfig) :
    List TgMessage → Store → Nat → List Delivery →
    Store × Nat × List Delivery × Option PyError
  | [], st, k, ds => (st, k, ds, none)
  | m :: rest, st, k, ds =>
    if rc.discord_healthy k = false then
      replayMessages rc forwarders rest st (k + 1) ds
    else
      match handle_new_message rc.hctx forwarders st m with
      | .error e => (st, k + 1, ds, some e)
      | .ok (st', ds') => replayMessages rc forwarders rest st' (k + 1) (ds ++ ds')

/-- The per-route loop of `Bridge.on_restored_connectivity`
(`src/bridge/core.py`, lines 339-368): for each last-mapping record, resolve
the route's source channel (a falsy channel skips the route), fetch the
messages after the last mapped id and replay them in the order the fetch
returned them.  An exception from the fetch or the replay aborts the whole
tick (caught only by the tick-level try/except). -/
def replayRoutes (rc : RecoveryCtx) (forwarders : List ForwarderConfig) :
    List (String × Nat) → Store → Nat → List Delivery →
    Store × Nat × List Delivery × Option PyError
  | [], st, k, ds => (st, k, ds, none)
  | (forwarder_name, last_tg_message_id) :: rest, st, k, ds =>
    match get_telegram_channel_by_forwarder_name forwarders forwarder_name with
    | none => replayRoutes rc forwarders rest st k ds
    | some channel_id =>
      match rc.fetch last_tg_message_id channel_id with
      | .error e => (st, k, ds, some e)
      | .ok fetched =>
        match replayMessages rc forwarders fetched st k ds with
        | (st', k', ds', none) => replayRoutes rc forwarders rest st' k' ds'
        | (st', k', ds', some e) => (st', k', ds', some e)

/-- The body of one healthy recovery tick (`src/bridge/core.py`,
lines 334-372, the region wrapped by the try/except): read the last mappings
for all forwarders and replay every route.  The third component is the
exception the tick body raised, if any; the caller catches it. -/
def tickBody (rc : RecoveryCtx) (forwarders : List ForwarderConfig)
    (st : Store) : Store × List Delivery × Option PyError :=
  let last_messages := get_last_messages_for_all_forwarders st forwarders
  let r := replayRoutes rc forwarders last_messages st 0 []
  (r.1, r.2.2.1, r.2.2.2)

/-- Result of one iteration of the `while True` loop of
`Bridge.on_restored_connectivity`: the store, the deliveries, the exception
caught by the tick-level `except Exception` (never re-raised) and the number
of seconds the loop then sleeps before its next iteration. -/
structure TickResult where
  store : Store
  deliveries : List Delivery
  caught : Option PyError
  sleep_seconds : Nat
deriving Repr, DecidableEq

/-- Embeds one iteration of `Bridge.on_restored_connectivity`
(`src/bridge/core.py`, lines 329-376): when the internet flag and the
Telegram health flag are both true, run the tick body and catch any
exception it raised; in every case finish by sleeping for the configured
health-check interval, after which the loop runs again. -/
def loop_iteration (rc : RecoveryCtx) (forwarders : List ForwarderConfig)
    (internet_connected tg_is_healthy : Bool) (healthcheck_interval : Nat)
    (st : Store) : TickResult :=
  if internet_connected && tg_is_healthy then
    let t := tickBody rc forwarders st
    ⟨t.1, t.2.1, t.2.2, healthcheck_interval⟩
  else
    ⟨st, [], none, healthcheck_interval⟩

/-! Concrete fixtures used by the scenario theorems below. -/

/-- A route used by the concrete scenarios: it forwards only on the allow
tag `t`, from source channel 7 to destination channel 11. -/
def fwdR : ForwarderConfig :=
  ⟨"r", 7, 11, false, [⟨"t", false⟩], [], [], false⟩

/-- A source message on channel 7 tagged `#t`, with the given id. -/
def mkMsg (i : Nat) : TgMessage :=
  ⟨i, 7, "x", ["t"], false, none⟩

/-- A handler environment whose destination accepts every send and answers
it with destination message id 42, whose splitter keeps the text as a single
part, and whose channel history is empty. -/
def hctx0 : HandlerCtx :=
  ⟨fun t => [t], fun _ => .ok 42, fun _ => .ok [], [], [], fun _ => []⟩

/-- The empty Mapping Store. -/
def store0 : Store := ⟨[], []⟩

/-- Whether a send outcome is a success. -/
def sendOk : Except DiscordError Nat → Bool
  | .ok _ => true
  | .error _ => false

/-- A handler environment whose splitter splits every text into two parts
and whose destination answers the n-th send with id `10 + n`. -/
def ctxTwoParts : HandlerCtx :=
  { hctx0 with split := fun _ => ["a", "b"], send := fun n => .ok (10 + n) }

/-- A source message with id 9 on channel 7 tagged `#t`. -/
def msgT9 : TgMessage := ⟨9, 7, "m", ["t"], false, none⟩

/-- A destination send behaviour that accepts the first send (id 10) and
refuses every later one with `Forbidden`. -/
def sendFailsAfterOne : Nat → Except DiscordError Nat :=
  fun n => if n == 0 then .ok 10 else .error .forbidden

/-- A handler environment splitting every text into three parts over the
`sendFailsAfterOne` destination. -/
def ctxThreeParts : HandlerCtx :=
  { hctx0 with split := fun _ => ["a", "b", "c"], send := sendFailsAfterOne }

/-- A reply (id 9, replying to source message 5) on channel 7 tagged `#t`. -/
def msgReply9 : TgMessage := ⟨9, 7, "x", ["t"], false, some 5⟩

/-- A store already holding the mapping `("r", 5) ↦ 100`. -/
def storeReply : Store := ⟨[(("r", 5), 100)], []⟩

/-- A route forwarding everything with no mention override and no
deny-list (the configuration of claim C10). -/
def fwdAll : ForwarderConfig := ⟨"r", 7, 11, true, [], [], [], false⟩

/-- A route forwarding everything, allow tag `News`, deny tag `Draft`. -/
def fwdDeny : ForwarderConfig :=
  ⟨"r", 7, 11, true, [⟨"News", false⟩], [⟨"Draft", false⟩], [], false⟩

/-- A message tagged `#NEWS` and `#dRaFt` on channel 7. -/
def msgDeny : TgMessage := ⟨9, 7, "x", ["NEWS", "dRaFt"], false, none⟩

/-- A store whose route `r` has its last mapping at source id 100. -/
def storeR : Store := ⟨[(("r", 100), 50)], []⟩

/-- A recovery environment whose fetch returns the source ids 103, 101, 102
in that (out-of-ascending) order and whose destination is always healthy. -/
def rcOutOfOrder : RecoveryCtx :=
  ⟨hctx0, fun _ _ => .ok [mkMsg 103, mkMsg 101, mkMsg 102], fun _ => true⟩

/-- A recovery environment whose fetch returns the source ids 101, 102 and
whose destination health flag is false at the first per-message check of
the tick and true afterwards. -/
def rcUnhealthyFirst : RecoveryCtx :=
  ⟨hctx0, fun _ _ => .ok [mkMsg 101, mkMsg 102], fun k => k != 0⟩

/-- Routes `r1` and `r2`, both on source channel 7. -/
def fwdR1 : ForwarderConfig := ⟨"r1", 7, 11, true, [], [], [], false⟩

/-- Second of the two sibling routes on source channel 7. -/
def fwdR2 : ForwarderConfig := ⟨"r2", 7, 12, true, [], [], [], false⟩

/-- An edit destination on which fetching message 100 raises `NotFound`
while every other message is found and every edit succeeds. -/
def edNotFound100 : EditDest :=
  ⟨fun _ => some 1, fun m => if m == 100 then .error .notFound else .ok (some m),
   fun _ => .ok ()⟩

/-- A store mapping source message 5 to destination 100 under `r1` and to
destination 200 under `r2`. -/
def storeTwoRoutes : Store := ⟨[(("r1", 5), 100), (("r2", 5), 200)], []⟩

/-- A delete destination on which every operation succeeds. -/
def ddAllOk : DeleteDest := ⟨fun _ => some 1, fun _ => .ok (), fun _ => .ok ()⟩

/-- A store mapping source message 5 to destination 100 under `r1`. -/
def storeOneMapping : Store := ⟨[(("r1", 5), 100)], []⟩

/-- A Mapping Store lookup that maps the source id 5 to destination 100. -/
def lookFive : Nat → Option Nat := fun r => if r == 5 then some 100 else none

/-- A channel-history collaborator whose window around an id contains
exactly that id. -/
def histSelf : Nat → Except DiscordError (List Nat) := fun d => .ok [d]

/-! Helper lemmas shared by the claim theorems. -/

/-- Looking up a key immediately after recording it yields the recorded
destination id. -/
theorem get_discord_message_id_save (st : Store) (nm : String) (i d : Nat) :
    get_discord_message_id (save_mapping_data st nm i d) nm i = some d := by
  unfold get_discord_message_id save_mapping_data
  rw [List.find?_cons_of_pos]
  · rfl
  · simp

/-! Claim theorems. -/

/-- C7 (amended): handling a delete event never mutates the Mapping Store:
`Bridge._handle_deleted_message` contains no history-manager write, so the
store after the handler equals the store before it (the destination-side
deletes are its only effect). -/
theorem C7_delete_never_mutates_store (dest : DeleteDest)
    (forwarders : List ForwarderConfig) (st : Store) (tg_channel_id : Nat)
    (deleted_ids : List Nat) :
    (handle_deleted_message dest forwarders st tg_channel_id deleted_ids).store = st := by
  unfold handle_deleted_message
  dsimp only
  split <;> rfl

/-- C7 (counterexample): a delete event for source message 5 on route `r1`
successfully deletes the mapped destination message 100, yet afterwards the
mapping `("r1", 5) ↦ 100` is still in the store, contradicting the claim
that the handler removes it. -/
theorem C7_mapping_kept_counterexample :
    handle_deleted_message ddAllOk [fwdR1] storeOneMapping 7 [5] =
        ⟨storeOneMapping, [100], none⟩ ∧
      get_discord_message_id
        (handle_deleted_message ddAllOk [fwdR1] storeOneMapping 7 [5]).store "r1" 5 =
        some 100 ∧
      some 100 ≠ (none : Option Nat) :=
  ⟨by decide, by decide, by decide⟩

/-- C9: one iteration of the recovery loop is a total function: whatever the
collaborators do — the fetch or the replay may raise any exception — the
iteration ends by sleeping for the configured health-check interval, and an
exception the tick body raised shows up only as the `caught` component
(the tick-level `except Exception` catches it; it never escapes). -/
theorem C9_tick_always_reschedules (rc : RecoveryCtx)
    (forwarders : List ForwarderConfig) (internet_connected tg_is_healthy : Bool)
    (healthcheck_interval : Nat) (st : Store) :
    (loop_iteration rc forwarders internet_connected tg_is_healthy
        healthcheck_interval st).sleep_seconds = healthcheck_interval ∧
      (loop_iteration rc forwarders true true healthcheck_interval st).caught =
        (tickBody rc forwarders st).2.2 := by
  constructor
  · unfold loop_iteration
    split <;> rfl
  · rfl

/-- C8 (amended): when the destination health flag is false at a
per-message check, the replay loop skips exactly that one message and
continues with the remaining messages of the same tick (`continue`, not a
tick abort). -/
theorem C8_unhealthy_skips_single_message (rc : RecoveryCtx)
    (forwarders : List ForwarderConfig) (m : TgMessage) (rest : List TgMessage)
    (st : Store) (k : Nat) (ds : List Delivery)
    (h : rc.discord_healthy k = false) :
    replayMessages rc forwarders (m :: rest) st k ds =
      replayMessages rc forwarders rest st (k + 1) ds := by
  conv_lhs => rw [replayMessages]
  rw [if_pos h]

/-- C8 (witness): in the `rcUnhealthyFirst` scenario the first fetched
message (id 101) is skipped and the replay continues with message 102. -/
theorem C8_unhealthy_skips_single_message_witness :
    replayMessages rcUnhealthyFirst [fwdR] [mkMsg 101, mkMsg 102] storeR 0 [] =
      replayMessages rcUnhealthyFirst [fwdR] [mkMsg 102] storeR 1 [] :=
  C8_unhealthy_skips_single_message rcUnhealthyFirst [fwdR] (mkMsg 101) [mkMsg 102]
    storeR 0 [] rfl

/-- C8 (counterexample): with the destination unhealthy at the first
per-message check and healthy again at the second, the tick still delivers
message 102 (the claim requires no further deliveries in that tick), no
mapping is recorded for the skipped message 101, and the route's last
mapping advances to 102 — past the skipped 101, which a fetch of ids
greater than the cursor can never return again. -/
theorem C8_delivered_after_unhealthy_counterexample :
    (tickBody rcUnhealthyFirst [fwdR] storeR).2.1.map Delivery.tg_id = [102] ∧
      [102] ≠ ([] : List Nat) ∧
      get_discord_message_id (tickBody rcUnhealthyFirst [fwdR] storeR).1 "r" 101 = none ∧
      get_last_messages_for_all_forwarders (tickBody rcUnhealthyFirst [fwdR] storeR).1
        [fwdR] = [("r", 102)] :=
  ⟨by decide, by decide, by decide, by decide⟩

/-- C10: for a route with `forward_everything = true`, no mention override
and no deny-list, the local `message_forward_hashtags` is never assigned
before `get_mention_roles` reads it, so handling any new message on such a
route raises `UnboundLocalError` instead of forwarding. -/
theorem C10_unbound_local (ctx : HandlerCtx) (st : Store) (msg : TgMessage)
    (f : ForwarderConfig) (h1 : f.forward_everything = true)
    (h2 : f.mention_override = []) (h3 : f.excluded_hashtags = [])
    (h4 : msg.channel_id = f.tg_channel_id) :
    handle_new_message ctx [f] st msg = .error .unboundLocal := by
  simp [handle_new_message, get_matching_forwarders, handleRoutes, routeStep,
    routeDecision, deliverRoute, h1, h2, h3, h4]

/-- C10 (witness): the concrete forward-everything route `fwdAll` raises
`UnboundLocalError` on the concrete message `mkMsg 9`. -/
theorem C10_unbound_local_witness :
    handle_new_message hctx0 [fwdAll] store0 (mkMsg 9) = .error .unboundLocal :=
  C10_unbound_local hctx0 store0 (mkMsg 9) fwdAll rfl rfl rfl rfl

/-- C2: when any extracted hashtag of the event matches the route's
deny-list (case-insensitively), the routing decision has
`should_forward = false` and the forwarder-loop iteration skips the route —
store, send counter and deliveries untouched — whatever the allow-list or
`forward_everything` said. -/
theorem C2_deny_overrides (ctx : HandlerCtx) (msg : TgMessage) (st : Store)
    (n : Nat) (mfh : Option (List String)) (f : ForwarderConfig)
    (h : ∃ t ∈ f.excluded_hashtags,
      (get_message_forward_hashtags msg).contains (strLower t.name) = true) :
    (routeDecision msg f mfh).should_forward = false ∧
      routeStep ctx msg st n mfh f =
        .ok (st, n, some (get_message_forward_hashtags msg), none) := by
  obtain ⟨t, ht, hc⟩ := h
  have hne : f.excluded_hashtags.isEmpty = false := by
    cases hx : f.excluded_hashtags with
    | nil => rw [hx] at ht; cases ht
    | cons a l => rfl
  have hmem : t ∈ f.excluded_hashtags.filter
      (fun t' => (get_message_forward_hashtags msg).contains (strLower t'.name)) :=
    List.mem_filter.mpr ⟨ht, hc⟩
  have hlen : 0 < (f.excluded_hashtags.filter
      (fun t' => (get_message_forward_hashtags msg).contains (strLower t'.name))).length :=
    List.length_pos.mpr (List.ne_nil_of_mem hmem)
  have hdec : ∃ me, routeDecision msg f mfh =
      ⟨false, me, some (get_message_forward_hashtags msg)⟩ := by
    unfold routeDecision
    rw [hne]
    simp only [Bool.not_false, if_true]
    rw [if_pos hlen]
    exact ⟨_, rfl⟩
  obtain ⟨me, hdec⟩ := hdec
  refine ⟨by rw [hdec], ?_⟩
  simp [routeStep, hdec]

/-- C2 (witness): the route `fwdDeny` (forward everything, allow `News`,
deny `Draft`) does not forward the message tagged `#NEWS` and `#dRaFt`. -/
theorem C2_deny_overrides_witness :
    (routeDecision msgDeny fwdDeny none).should_forward = false ∧
      routeStep hctx0 msgDeny store0 0 none fwdDeny =
        .ok (store0, 0, some (get_message_forward_hashtags msgDeny), none) :=
  C2_deny_overrides hctx0 msgDeny store0 0 none fwdDeny (by decide)

/-- Helper for C1: the delivery half of the forwarder loop stores exactly
the first sent destination id under (route name, source message id). -/
theorem deliverRoute_mapping_first (ctx : HandlerCtx) (msg : TgMessage)
    (st : Store) (n : Nat) (mfh : Option (List String)) (me : Bool)
    (f : ForwarderConfig) (st' : Store) (n' : Nat) (d : Delivery)
    (h : deliverRoute ctx msg st n mfh me f = .ok (st', n', some d)) :
    get_discord_message_id st' f.forwarder_name msg.id = d.sent_ids.head? := by
  unfold deliverRoute at h
  cases mfh with
  | none => simp at h
  | some tags =>
    dsimp only at h
    split at h
    · simp at h
    · split at h
      · simp at h
      · split at h
        · simp only [Except.ok.injEq, Prod.mk.injEq, Option.some.injEq] at h
          obtain ⟨h1, _, h3⟩ := h
          subst h1
          subst h3
          rw [get_discord_message_id_save]
          rfl
        · simp at h

/-- C1 (amended): for every forwarder-loop iteration that produced a
delivery, the Mapping Store entry recorded for (route name, source message
id) holds exactly the first destination message id the delivery produced
(in send order) — not the full ordered list. -/
theorem C1_mapping_first_id (ctx : HandlerCtx) (msg : TgMessage) (st : Store)
    (n : Nat) (mfh : Option (List String)) (f : ForwarderConfig)
    (st' : Store) (n' : Nat) (mfh' : Option (List String)) (d : Delivery)
    (h : routeStep ctx msg st n mfh f = .ok (st', n', mfh', some d)) :
    get_discord_message_id st' f.forwarder_name msg.id = d.sent_ids.head? := by
  unfold routeStep at h
  by_cases hf : (routeDecision msg f mfh).should_forward = true
  · rw [if_pos hf] at h
    cases hd : deliverRoute ctx msg st n (routeDecision msg f mfh).hashtags
        (routeDecision msg f mfh).mention_everyone f with
    | error e => rw [hd] at h; simp at h
    | ok v =>
      obtain ⟨st2, n2, od⟩ := v
      rw [hd] at h
      simp only [Except.ok.injEq, Prod.mk.injEq] at h
      obtain ⟨h1, h2, _, h4⟩ := h
      subst h1
      subst h4
      exact deliverRoute_mapping_first ctx msg st n _ _ f st2 n2 d hd
  · rw [if_neg hf] at h
    simp at h

/-- C1 (witness): in the two-part scenario the route delivered destination
ids 10 and 11, and the recorded mapping holds 10, the head of that list. -/
theorem C1_mapping_first_id_witness :
    get_discord_message_id (⟨[(("r", 9), 10)], []⟩ : Store) "r" 9 =
      ([10, 11] : List Nat).head? :=
  C1_mapping_first_id ctxTwoParts msgT9 store0 0 none fwdR
    ⟨[(("r", 9), 10)], []⟩ 2 (some ["t"]) ⟨"r", 9, none, [10, 11]⟩ (by decide)

/-- C1 (counterexample): a delivery that produced the two destination ids
10 and 11 records a mapping holding only 10 — not the ordered list of all
produced ids, as the claim states. -/
theorem C1_single_id_counterexample :
    handle_new_message ctxTwoParts [fwdR] store0 msgT9 =
        .ok (⟨[(("r", 9), 10)], []⟩, [⟨"r", 9, none, [10, 11]⟩]) ∧
      (get_discord_message_id (⟨[(("r", 9), 10)], []⟩ : Store) "r" 9).toList ≠
        [10, 11] :=
  ⟨by decide, by decide⟩

/-- C5 (amended): when the i-th send of a multi-part delivery fails after i
successful sends, the send loop stops right there — exactly i + 1 send
attempts are consumed, the remaining parts are never sent — and the
exception propagates out of `forward_to_discord` (the source has no
try/except around the sends and returns no failure value). -/
theorem C5_first_failure_aborts_parts (send : Nat → Except DiscordError Nat)
    (parts : List String) (n i : Nat) (e : DiscordError)
    (hi : i < parts.length)
    (hok : ∀ j, j < i → sendOk (send (n + j)) = true)
    (he : send (n + i) = .error e) :
    forwardParts send n parts = (n + i + 1, .error e) := by
  induction parts generalizing n i with
  | nil => simp at hi
  | cons p rest ih =>
    cases i with
    | zero =>
      rw [Nat.add_zero] at he
      unfold forwardParts
      rw [he]
    | succ i' =>
      have h0 : sendOk (send n) = true := by
        have h' := hok 0 (Nat.succ_pos i')
        rwa [Nat.add_zero] at h'
      cases hs : send n with
      | error e' => rw [hs] at h0; simp [sendOk] at h0
      | ok m =>
        have hlen : i' < rest.length := by
          simp only [List.length_cons] at hi
          omega
        have hrec : forwardParts send (n + 1) rest = (n + 1 + i' + 1, .error e) := by
          apply ih _ _ hlen
          · intro j hj
            have h' := hok (j + 1) (Nat.succ_lt_succ hj)
            rwa [show n + (j + 1) = n + 1 + j by omega] at h'
          · rwa [show n + 1 + i' = n + (i' + 1) by omega]
        unfold forwardParts
        rw [hs, hrec]
        have harith : n + 1 + i' + 1 = n + (i' + 1) + 1 := by omega
        rw [harith]

/-- C5 (witness): over the `sendFailsAfterOne` destination the three-part
send stops after two attempts with the `Forbidden` error. -/
theorem C5_first_failure_aborts_parts_witness :
    forwardParts sendFailsAfterOne 0 ["a", "b", "c"] = (0 + 1 + 1, .error .forbidden) :=
  C5_first_failure_aborts_parts sendFailsAfterOne ["a", "b", "c"] 0 1 .forbidden
    (by decide) (by decide) (by decide)

/-- C5 (counterexample): with a three-part split whose second send is
refused, the third part is never attempted (two attempts consumed), and the
exception escapes `forward_to_discord` and the whole new-message handler —
no `DeliveryFailure` value is returned and no missed-forward record is
written, contradicting the claim's never-raise-past-the-boundary part. -/
theorem C5_exception_propagates_counterexample :
    forward_to_discord (fun _ => ["a", "b", "c"]) sendFailsAfterOne 0 "m" none =
        (2, .error (.discord .forbidden)) ∧
      handle_new_message ctxThreeParts [fwdR] store0 msgT9 =
        .error (.discord .forbidden) :=
  ⟨by decide, by decide⟩

/-- C6 (amended): reference resolution behaves as follows: with no mapping
for the replied-to source id the resolution yields no reference; with a
mapping whose destination id is found in the channel-history window fetched
around it, the resolution yields a reference to the mapped id; with a
mapping whose history fetch raises `NotFound`, the error is caught and the
resolution yields no reference rather than raising. -/
theorem C6_reference_resolution (lookupMapping : Nat → Option Nat)
    (historyAround : Nat → Except DiscordError (List Nat)) (rid : Nat) :
    (lookupMapping rid = none →
        fetch_discord_reference lookupMapping historyAround rid = .ok none) ∧
      (∀ d l, lookupMapping rid = some d → historyAround d = .ok l → d ∈ l →
        fetch_discord_reference lookupMapping historyAround rid = .ok (some d)) ∧
      (∀ d, lookupMapping rid = some d → historyAround d = .error .notFound →
        fetch_discord_reference lookupMapping historyAround rid = .ok none) := by
  refine ⟨?_, ?_, ?_⟩
  · intro h
    unfold fetch_discord_reference
    rw [h]
  · intro d l h1 h2 hmem
    unfold fetch_discord_reference
    rw [h1]
    dsimp only
    rw [h2]
    dsimp only
    cases hf : l.find? (fun m => m == d) with
    | none =>
      rw [List.find?_eq_none] at hf
      exact absurd (beq_self_eq_true d) (by simpa using hf d hmem)
    | some x => rfl
  · intro d h1 h2
    unfold fetch_discord_reference
    rw [h1]
    dsimp only
    rw [h2]

/-- C6 (witness): with the mapping `5 ↦ 100` and a history window that
contains the mapped message, resolution yields the reference to 100. -/
theorem C6_reference_resolution_witness :
    fetch_discord_reference lookFive histSelf 5 = .ok (some 100) :=
  (C6_reference_resolution lookFive histSelf 5).2.1 100 [100] rfl rfl (by decide)

/-- C6 (counterexample): the Mapping Store has the mapping `("r", 5) ↦ 100`
for the replied-to source message 5, yet the delivery of the reply carries
no reference, because the mapped destination message is not in the history
window the destination returned — the claim's "mapping present implies the
send carries the mapped reference" is false on the code. -/
theorem C6_mapped_reference_missing_counterexample :
    handle_new_message hctx0 [fwdR] storeReply msgReply9 =
        .ok (⟨[(("r", 9), 42), (("r", 5), 100)], []⟩, [⟨"r", 9, none, [42]⟩]) ∧
      get_discord_message_id storeReply "r" 5 = some 100 ∧
      (⟨"r", 9, none, [42]⟩ : Delivery).reference = none :=
  ⟨by decide, by decide, by decide⟩

/-- C4: an edit event on source channel 7 for message 5 matches the sibling
routes `r1` and `r2`; fetching `r1`'s mapped destination message 100 raises
`NotFound`, and the handler returns at once — `r2`'s mapped message 200,
although present and editable on this destination, is never edited.  The
spec's isolation policy (one route's failure never blocks sibling routes)
is violated: the edit loop's `except` clauses log "skipping" but `return`
instead of `continue`. -/
theorem C4_edit_abort_on_first_failure :
    handle_edit_message edNotFound100 [fwdR1, fwdR2] storeTwoRoutes 7 5 =
        ([], some .notFound) ∧
      get_discord_message_id storeTwoRoutes "r2" 5 = some 200 ∧
      edNotFound100.fetch_message 200 = .ok (some 200) ∧
      edNotFound100.edit_message 200 = .ok () :=
  ⟨by decide, by decide, by decide, by decide⟩

/-- Helper for C3: on the recovery fixtures, handling a fetched message of
id `i` succeeds, records the mapping `("r", i) ↦ 42` and produces the one
corresponding delivery. -/
theorem handle_new_message_mkMsg (st : Store) (i : Nat) :
    handle_new_message hctx0 [fwdR] st (mkMsg i) =
      .ok (save_mapping_data st "r" i 42, [⟨"r", i, none, [42]⟩]) := rfl

/-- C3 (amended): the replay loop of a recovery tick delivers the fetched
messages exactly in the order the fetch collaborator returned them — it
performs no sorting — and records each message's mapping only after that
message's delivery succeeded (the store after the replay is the fold of the
per-delivery mapping writes in that same order). -/
theorem C3_delivery_in_fetch_order (ids : List Nat) (st : Store) (k : Nat)
    (ds : List Delivery) :
    replayMessages rcOutOfOrder [fwdR] (ids.map mkMsg) st k ds =
      (ids.foldl (fun s i => save_mapping_data s "r" i 42) st, k + ids.length,
        ds ++ ids.map (fun i => ⟨"r", i, none, [42]⟩), none) := by
  induction ids generalizing st k ds with
  | nil => simp [replayMessages]
  | cons i rest ih =>
    simp only [List.map_cons]
    conv_lhs => rw [replayMessages]
    rw [if_neg (by simp [rcOutOfOrder])]
    rw [show rcOutOfOrder.hctx = hctx0 from rfl, handle_new_message_mkMsg]
    show replayMessages rcOutOfOrder [fwdR] (rest.map mkMsg)
        (save_mapping_data st "r" i 42) (k + 1) (ds ++ [⟨"r", i, none, [42]⟩]) = _
    rw [ih]
    simp only [Prod.mk.injEq, List.foldl_cons, List.length_cons, List.map_cons,
      List.append_assoc, List.singleton_append, and_true, true_and]
    omega

/-- C3 (counterexample): with the cursor at 100 and the fetch collaborator
returning the ids 103, 101, 102 in that order, the tick delivers them in
exactly that order — not in the ascending order 101, 102, 103 the claim
requires. -/
theorem C3_out_of_order_counterexample :
    (tickBody rcOutOfOrder [fwdR] storeR).2.1.map Delivery.tg_id = [103, 101, 102] ∧
      (tickBody rcOutOfOrder [fwdR] storeR).2.2 = none ∧
      [103, 101, 102] ≠ [101, 102, 103] :=
  ⟨by decide, by decide, by decide⟩

end TgBridge
